import Mathlib

/-!
Verification of the SIWE authentication core of `base-buzz/auth-test`.

The development shallowly embeds:
* the `siwe` package surface used by the credentials provider
  (message construction/validation and `SiweMessage.verify`),
* the `authorize` callback of `src/app/api/auth/[...nextauth]/route.ts`,
* the session callback and the default JWT persistence of next-auth,
* both profile `GET`/`POST` route variants (account resolution, handle
  backfill, profile update),
* the public `GET /api/users/[handle]` route, and
* the middleware route guard.

Cryptographic primitives (ECDSA address recovery, EIP-55 checksums) are
abstracted as oracle parameters; time stamps are abstracted as naturals.
Database access through the supabase client is modelled by an explicit
table (a list of rows) plus an explicit fault-injection record describing
which storage call fails with which error code, mirroring the
`PostgrestError` objects the code branches on.
-/

namespace AuthTest

/-- Fields of a SIWE (EIP-4361) message.  This is the shape of the object the
client JSON-serializes into `credentials.message` and that the `siwe` package
class carries.  Timestamps are abstracted as naturals; a JSON field that is
absent or `undefined` is modelled by `""` / `none`, which takes the same
validation branch in the constructor as an absent field does in the source. -/
structure SiweMessage where
  domain : String
  address : String
  statement : Option String
  uri : String
  version : String
  chainId : Nat
  nonce : String
  issuedAt : Option Nat
  expirationTime : Option Nat
  notBefore : Option Nat
deriving DecidableEq, Repr

/-- One optional `label value` metadata line of the EIP-4361 template. -/
def tsLine (label : String) (t : Option Nat) : String :=
  match t with
  | some n => "\n" ++ label ++ toString n
  | none => ""

/-- The canonical EIP-4361 textual form produced by the `siwe` package
(`toMessage`/`prepareMessage`): header with domain and address, optional
statement, then the `key: value` metadata lines.  The signature is verified
over exactly this text. -/
def SiweMessage.prepareMessage (m : SiweMessage) : String :=
  let header := m.domain ++ " wants you to sign in with your Ethereum account:\n" ++ m.address
  let headPart :=
    match m.statement with
    | some s => header ++ "\n\n" ++ s
    | none => header ++ "\n"
  headPart ++ "\n\n" ++
    "URI: " ++ m.uri ++
    "\nVersion: " ++ m.version ++
    "\nChain ID: " ++ toString m.chainId ++
    "\nNonce: " ++ m.nonce ++
    tsLine "Issued At: " m.issuedAt ++
    tsLine "Expiration Time: " m.expirationTime ++
    tsLine "Not Before: " m.notBefore

/-- Error reasons of `SiweMessage.verify` in the `siwe` package. -/
inductive SiweErrorType
  | expiredMessage
  | invalidSignature
  | domainMismatch
  | nonceMismatch
  | notYetValidMessage
deriving DecidableEq, Repr

/-- Parameters of `SiweMessage.verify`.  In the `siwe` package `domain`,
`nonce` and `time` are optional: a check runs only when the corresponding
parameter is supplied by the caller. -/
structure VerifyParams where
  signature : String
  domain : Option String := none
  nonce : Option String := none
  time : Option Nat := none
deriving DecidableEq, Repr

/-- `SiweMessage.verify` of the `siwe` package, with ECDSA address recovery
abstracted as the oracle `recover` (canonical message text and signature to
recovered address, `none` when recovery fails).  Checks run in source order:
domain (only if a domain parameter was passed), nonce (only if passed),
expiration window, then signature recovery compared against the address of the
message.  A failed check rejects with the corresponding error. -/
def SiweMessage.verify (recover : String → String → Option String)
    (m : SiweMessage) (p : VerifyParams) (now : Nat) :
    Except SiweErrorType Unit :=
  if p.domain.any (fun d => d != m.domain) then
    .error .domainMismatch
  else if p.nonce.any (fun n => n != m.nonce) then
    .error .nonceMismatch
  else
    let checkTime := p.time.getD now
    if m.expirationTime.any (fun exp => decide (exp ≤ checkTime)) then
      .error .expiredMessage
    else if m.notBefore.any (fun nb => decide (checkTime < nb)) then
      .error .notYetValidMessage
    else
      match recover m.prepareMessage p.signature with
      | some a => if a = m.address then .ok () else .error .invalidSignature
      | none => .error .invalidSignature

/-- Throw reasons of the `SiweMessage` constructor validation
(`validateMessage`) in the `siwe` package. -/
inductive SiweParseError
  | invalidDomain
  | invalidAddress
  | invalidUri
  | invalidMessageVersion
  | invalidNonce
deriving DecidableEq, Repr

/-- The `new SiweMessage(object)` constructor of the `siwe` package: fields
are taken from the parsed JSON object, an empty nonce is replaced by a fresh
generated one, and `validateMessage` then requires a non-empty domain, an
EIP-55 checksummed address (abstracted as the oracle `isEIP55`), a non-empty
URI, version `"1"`, and a nonce of at least 8 characters; a failing check
throws the corresponding error. -/
def SiweMessage.create (isEIP55 : String → Bool) (freshNonce : String)
    (i : SiweMessage) : Except SiweParseError SiweMessage :=
  let m := if i.nonce = "" then { i with nonce := freshNonce } else i
  if m.domain = "" then .error .invalidDomain
  else if ¬ isEIP55 m.address then .error .invalidAddress
  else if m.uri = "" then .error .invalidUri
  else if m.version ≠ "1" then .error .invalidMessageVersion
  else if m.nonce.length < 8 then .error .invalidNonce
  else .ok m

/-- The user object returned by a successful `authorize` in the route:
`{ id: siwe.address }`. -/
structure AuthUser where
  id : String
deriving DecidableEq, Repr

/-- The text submitted as `credentials.message`: either valid JSON denoting a
SIWE field object, or text on which `JSON.parse` throws. -/
inductive MessageText
  | jsonObj (fields : SiweMessage)
  | notJson (raw : String)
deriving DecidableEq, Repr

/-- JavaScript truthiness of the message text: a string is falsy exactly when
empty; serialized JSON object text is never empty. -/
def MessageText.truthy : MessageText → Bool
  | .jsonObj _ => true
  | .notJson raw => raw != ""

/-- The credentials payload handed to `authorize`; each field may be absent. -/
structure Credentials where
  message : Option MessageText
  signature : Option String
deriving DecidableEq, Repr

/-- Per-request server context of `authorize`: the value `getCsrfToken`
derives from the cookies of the request (`none` when it cannot be obtained), and
the value the siwe nonce generator would produce in this request if the
constructor had to replace an empty nonce. -/
structure ReqCtx where
  csrfToken : Option String
  freshNonce : String
deriving DecidableEq, Repr

/-- An exception that escapes `authorize` uncaught: the `JSON.parse` in the
opening `logToServer` call runs before the `try` block, so its throw
propagates to the transport layer. -/
inductive UncaughtError
  | jsonParseThrow
deriving DecidableEq, Repr

/-- Body of the `try` block of `authorize` (route.ts lines 38-106): missing or
falsy credentials return `null`; the SIWE message is constructed and
validated (a constructor throw is caught, returning `null`); a missing CSRF
token returns `null`; `siwe.verify` is called with only the signature and the
CSRF token as expected nonce — no domain parameter is passed; on success the
address becomes the user id, on failure `null` is returned (a verify
rejection is caught by the surrounding `catch`). -/
def authorizeTryBody (recover : String → String → Option String)
    (isEIP55 : String → Bool) (now : Nat)
    (credentials : Option Credentials) (ctx : ReqCtx) : Option AuthUser :=
  match credentials with
  | none => none
  | some c =>
    match c.message, c.signature with
    | some mt, some sig =>
      if !mt.truthy || sig == "" then none
      else
        match mt with
        | .notJson _ => none
        | .jsonObj fields =>
          match SiweMessage.create isEIP55 ctx.freshNonce fields with
          | .error _ => none
          | .ok siwe =>
            match ctx.csrfToken with
            | none => none
            | some csrf =>
              match siwe.verify recover { signature := sig, nonce := some csrf } now with
              | .ok _ => some { id := siwe.address }
              | .error _ => none
    | _, _ => none

/-- The `authorize` callback of the credentials provider (route.ts lines
32-107).  The opening log statement evaluates
`credentials?.message ? JSON.parse(credentials.message).address : "unknown"`
before the `try` block begins, so when the message text is truthy but not
valid JSON the parse throw escapes `authorize` uncaught; every other path is
inside the `try`/`catch` and yields a controlled `Option` result.  The
handler performs no writes: in particular it neither rotates nor invalidates
the CSRF-derived nonce on success. -/
def authorize (recover : String → String → Option String)
    (isEIP55 : String → Bool) (now : Nat)
    (credentials : Option Credentials) (ctx : ReqCtx) :
    Except UncaughtError (Option AuthUser) :=
  match credentials with
  | some c =>
    match c.message with
    | some (.notJson raw) =>
      if raw != "" then .error .jsonParseThrow
      else .ok (authorizeTryBody recover isEIP55 now credentials ctx)
    | _ => .ok (authorizeTryBody recover isEIP55 now credentials ctx)
  | none => .ok (authorizeTryBody recover isEIP55 now credentials ctx)

/-- Environment configuration validated at module load of the auth route. -/
structure Env where
  nextauthSecret : String
  nextauthUrl : String
deriving DecidableEq, Repr

/-- Drops a leading character sequence, or returns `none` when it is not a
leading sequence of the list. -/
def dropLeading : List Char → List Char → Option (List Char)
  | [], l => some l
  | _, [] => none
  | p :: ps, c :: cs => if p = c then dropLeading ps cs else none

/-- Characters up to (excluding) the first `'/'`. -/
def takeUntilSlash : List Char → List Char
  | [] => []
  | c :: cs => if c = '/' then [] else c :: takeUntilSlash cs

/-- Host portion of a URL (scheme stripped, path dropped). -/
def hostOf (url : String) : String :=
  let cs := url.data
  let rest :=
    match dropLeading "https://".data cs with
    | some r => r
    | none =>
      match dropLeading "http://".data cs with
      | some r => r
      | none => cs
  String.mk (takeUntilSlash rest)

/-- Modelled from the spec: the expected SIWE domain of the server is the host of
the canonical deployment URL (`NEXTAUTH_URL`).  No function in the route
computes or consults this value during verification; it is defined here only
to state the domain-binding claim. -/
def specExpectedDomain (e : Env) : String := hostOf e.nextauthUrl

/-- The session user object, shaped by the next-auth type
augmentations of the repository (`src/types/next-auth.d.ts` declares `id` and `address`; the
alternate declaration file also declares `handle`).  All fields are optional
at runtime; none is populated unless a callback assigns it. -/
structure SessionUser where
  name : Option String := none
  email : Option String := none
  image : Option String := none
  id : Option String := none
  address : Option String := none
  handle : Option String := none
deriving DecidableEq, Repr

/-- The session object handed to and returned by the session callback. -/
structure Session where
  user : Option SessionUser := none
  expires : Nat := 0
deriving DecidableEq, Repr

/-- The decoded JWT claims bundle (`getToken` result / jwt-callback token).
`sub` holds the user id; `handle` is declared in the type
augmentation of the repository but no callback in the route ever writes it. -/
structure JWT where
  sub : Option String := none
  handle : Option String := none
  iat : Nat := 0
  exp : Nat := 0
deriving DecidableEq, Repr

/-- Session `maxAge` configured in `authOptions`: 90 days in seconds. -/
def maxAgeSeconds : Nat := 90 * 24 * 60 * 60

/-- Models the default JWT persistence of next-auth on sign-in: `authOptions`
defines no custom `jwt` callback, so the id of the user object returned by
`authorize` is stored as the `sub` claim of the token and no other claim is added;
the token is valid for `maxAgeSeconds` from issuance. -/
def tokenForSignIn (u : AuthUser) (now : Nat) : JWT :=
  { sub := some u.id, handle := none, iat := now, exp := now + maxAgeSeconds }

/-- The `session` callback of `authOptions` (route.ts lines 115-124): when the
token has a `sub`, the session user is rebuilt by spreading the existing user
and assigning both `id` and `address` from `token.sub`; otherwise the session
is returned unchanged. -/
def sessionCallback (session : Session) (token : JWT) : Session :=
  match token.sub with
  | some s =>
    let base : SessionUser := session.user.getD {}
    { session with user := some { base with id := some s, address := some s } }
  | none => session

/-- A row of the supabase `users` table. -/
structure UserRow where
  address : String
  handle : Option String := none
  display_name : Option String := none
  bio : Option String := none
  avatar_url : Option String := none
  email : Option String := none
  tier : Option String := none
  location : Option String := none
  created_at : Nat := 0
  updated_at : Nat := 0
deriving DecidableEq, Repr

/-- The `users` table. -/
abbrev Db := List UserRow

/-- `select ... .eq("address", a).maybeSingle()`. -/
def findByAddress (db : Db) (addr : String) : Option UserRow :=
  db.find? (fun r => r.address == addr)

/-- `select ... .eq("handle", h).maybeSingle()`. -/
def findByHandle (db : Db) (h : String) : Option UserRow :=
  db.find? (fun r => r.handle == some h)

/-- `userAddress.slice(-6)`: the last six characters of the address (the whole
string when it is shorter). -/
def sliceLast6 (s : String) : String :=
  s.drop (s.length - 6)

/-- Fault injection for the storage calls of one request: the error code the
corresponding supabase call reports, or `none` when the call succeeds against
the in-memory table.  An injected insert error with Postgres code `"23505"`
models the unique-constraint violation raised when a concurrent request
inserted the row first. -/
structure StoreFaults where
  selectErr : Option String := none
  insertErr : Option String := none
  updateErr : Option String := none
deriving DecidableEq, Repr

/-- Response of the first profile `GET` variant (route.ts lines 241-359):
its success body carries `name`, `bio` and `pfp_url`. -/
inductive ProfileGetResp
  | unauthorized
  | serverError (msg : String)
  | okBody (name bio pfp_url : Option String)
deriving DecidableEq, Repr

/-- HTTP status of a first-variant profile `GET` response. -/
def ProfileGetResp.status : ProfileGetResp → Nat
  | .unauthorized => 401
  | .serverError _ => 500
  | .okBody .. => 200

/-- Resolution step of the first profile `GET` variant, after the initial
select produced `found` (route.ts lines 284-346): a found row with a handle
is returned as is; a found row with a null handle gets the generated handle
via an update (an update error is thrown, producing a 500 response); an
absent row is inserted with the generated handle (an insert error — including
the unique-violation of a lost provisioning race — is thrown, producing a 500
response and no re-fetch). -/
def profileGetAfterSelect (addr : String) (found : Option UserRow) (db : Db)
    (f : StoreFaults) (now : Nat) : ProfileGetResp × Db :=
  match found with
  | some row =>
    match row.handle with
    | some _ => (.okBody row.display_name row.bio row.avatar_url, db)
    | none =>
      match f.updateErr with
      | some _ => (.serverError "update error", db)
      | none =>
        let row2 := { row with handle := some (sliceLast6 addr), updated_at := now }
        (.okBody row2.display_name row2.bio row2.avatar_url,
         db.map (fun r => if r.address == addr then row2 else r))
  | none =>
    match f.insertErr with
    | some _ => (.serverError "insert error", db)
    | none =>
      let row2 : UserRow :=
        { address := addr, handle := some (sliceLast6 addr),
          created_at := now, updated_at := now }
      (.okBody row2.display_name row2.bio row2.avatar_url, db ++ [row2])

/-- First profile `GET` variant (route.ts lines 241-359): 401 without an
authenticated address; a select error with code other than `"PGRST116"` is
thrown, producing a 500 response; a `"PGRST116"` select error leaves the data
null, taking the same path as an absent row. -/
def profileGet (userAddress : Option String) (db : Db) (f : StoreFaults)
    (now : Nat) : ProfileGetResp × Db :=
  match userAddress with
  | none => (.unauthorized, db)
  | some addr =>
    match f.selectErr with
    | some code =>
      if code != "PGRST116" then (.serverError "select error", db)
      else profileGetAfterSelect addr none db f now
    | none => profileGetAfterSelect addr (findByAddress db addr) db f now

/-- Response of the second profile `GET` variant (route.ts lines 610-760):
its success body additionally carries `handle`, `email`, `tier`, `location`
and `created_at`. -/
inductive ProfileGetResp2
  | unauthorized
  | serverError (msg : String)
  | okBody (name bio pfp_url handle email tier location : Option String)
      (created_at : Nat)
deriving DecidableEq, Repr

/-- HTTP status of a second-variant profile `GET` response. -/
def ProfileGetResp2.status : ProfileGetResp2 → Nat
  | .unauthorized => 401
  | .serverError _ => 500
  | .okBody .. => 200

/-- The handle field of a second-variant success body. -/
def ProfileGetResp2.handleOf : ProfileGetResp2 → Option String
  | .okBody _ _ _ h _ _ _ _ => h
  | _ => none

/-- Success body of the second profile `GET` variant for a row. -/
def profileBody2 (row : UserRow) : ProfileGetResp2 :=
  .okBody row.display_name row.bio row.avatar_url row.handle row.email
    row.tier row.location row.created_at

/-- Resolution step of the second profile `GET` variant (route.ts lines
661-724): like the first variant, except that a failed handle update is NOT
thrown — the route logs and proceeds with the old row (null handle), while an
insert error is still thrown, producing a 500 response and no re-fetch. -/
def profileGet2AfterSelect (addr : String) (found : Option UserRow) (db : Db)
    (f : StoreFaults) (now : Nat) : ProfileGetResp2 × Db :=
  match found with
  | some row =>
    match row.handle with
    | some _ => (profileBody2 row, db)
    | none =>
      match f.updateErr with
      | some _ => (profileBody2 row, db)
      | none =>
        let row2 := { row with handle := some (sliceLast6 addr), updated_at := now }
        (profileBody2 row2, db.map (fun r => if r.address == addr then row2 else r))
  | none =>
    match f.insertErr with
    | some _ => (.serverError "insert error", db)
    | none =>
      let row2 : UserRow :=
        { address := addr, handle := some (sliceLast6 addr),
          created_at := now, updated_at := now }
      (profileBody2 row2, db ++ [row2])

/-- Second profile `GET` variant (route.ts lines 610-760). -/
def profileGet2 (userAddress : Option String) (db : Db) (f : StoreFaults)
    (now : Nat) : ProfileGetResp2 × Db :=
  match userAddress with
  | none => (.unauthorized, db)
  | some addr =>
    match f.selectErr with
    | some code =>
      if code != "PGRST116" then (.serverError "select error", db)
      else profileGet2AfterSelect addr none db f now
    | none => profileGet2AfterSelect addr (findByAddress db addr) db f now

/-- Response of the public `GET /api/users/[handle]` route.  The success body
carries `address`, `name`, `pfp_url`, `bio`, `handle`, `created_at`, `tier`. -/
inductive UsersHandleResp
  | invalidHandle
  | dbError
  | notFound
  | found (address : String) (name pfp_url bio handle : Option String)
      (created_at : Nat) (tier : Option String)
deriving DecidableEq, Repr

/-- HTTP status of a `GET /api/users/[handle]` response. -/
def UsersHandleResp.status : UsersHandleResp → Nat
  | .invalidHandle => 400
  | .dbError => 500
  | .notFound => 404
  | .found .. => 200

/-- The public `GET /api/users/[handle]` route
(`src/app/api/users/[handle]/route.ts` lines 10-85): the handle parameter is
validated with `z.string().min(1)` (400 on failure, i.e. exactly on the empty
string); a database error yields 500; an absent row yields 404; otherwise the
selected columns of the row are returned. -/
def usersHandleGet (handle : String) (db : Db) (dbErr : Bool) : UsersHandleResp :=
  if handle.length < 1 then .invalidHandle
  else if dbErr then .dbError
  else
    match findByHandle db handle with
    | none => .notFound
    | some row =>
      .found row.address row.display_name row.avatar_url row.bio row.handle
        row.created_at row.tier

/-- Protected path roots of the middleware guard. -/
def protectedPaths : List String := ["/profile", "/settings", "/dashboard"]

/-- The JavaScript `s.startsWith(pre)`, computed on the character list. -/
def strStartsWith (s pre : String) : Bool :=
  (dropLeading pre.data s.data).isSome

/-- `protectedPaths.some((p) => path.startsWith(p))`. -/
def isProtectedPath (path : String) : Bool :=
  protectedPaths.any (fun p => strStartsWith path p)

/-- Outcome of the middleware: a redirect to the given pathname, or
pass-through (`NextResponse.next()`). -/
inductive MwResponse
  | redirect (pathname : String)
  | next
deriving DecidableEq, Repr

/-- The route guard (`middleware` in the middleware source file, lines 10-43):
for a protected path, `getToken` is consulted — its result is `none` when the
session token is missing, invalid or expired — and a missing token redirects
to the home page `"/"`; every other request passes through.  The decision is
terminal: no retry happens at this layer. -/
def middleware (path : String) (token : Option JWT) : MwResponse :=
  if isProtectedPath path then
    match token with
    | none => .redirect "/"
    | some _ => .next
  else .next

/-- An uploaded `pfp` form file. -/
structure PfpFile where
  name : String
  size : Nat
  type : String
deriving DecidableEq, Repr

/-- The profile `POST` form data: `formData.get` yields `null` for an absent
field, modelled as `none`. -/
structure ProfilePostInput where
  name : Option String := none
  bio : Option String := none
  pfp : Option PfpFile := none
deriving DecidableEq, Repr

/-- Response of the profile `POST` route. -/
inductive ProfilePostResp
  | unauthorized
  | invalidInput
  | fileTooLarge
  | invalidFileType
  | serverError (msg : String)
  | okBody (name bio pfp_url : Option String)
deriving DecidableEq, Repr

/-- HTTP status of a profile `POST` response. -/
def ProfilePostResp.status : ProfilePostResp → Nat
  | .unauthorized => 401
  | .invalidInput => 400
  | .fileTooLarge => 400
  | .invalidFileType => 400
  | .serverError _ => 500
  | .okBody .. => 200

/-- MIME types accepted for the profile picture. -/
def allowedPfpTypes : List String :=
  ["image/jpeg", "image/png", "image/gif", "image/webp"]

/-- Database update step of the profile `POST` route (route.ts lines
497-548): the update payload always contains `display_name := name`,
`bio := bio` and `updated_at`, and contains `avatar_url` only when a truthy
new public URL was produced; the update targets the rows whose `address`
equals that of the caller, and `.single()` throws when no row matched (500
response). -/
def profilePostUpdate (addr : String) (input : ProfilePostInput)
    (newUrl : Option String) (updateErr : Bool) (db : Db) (now : Nat) :
    ProfilePostResp × Db :=
  if updateErr then (.serverError "Failed to update profile data", db)
  else
    match findByAddress db addr with
    | none => (.serverError "Failed to update profile data", db)
    | some row =>
      let row2 :=
        { row with
          display_name := input.name,
          bio := input.bio,
          avatar_url := match newUrl with | some u => some u | none => row.avatar_url,
          updated_at := now }
      (.okBody row2.display_name row2.bio row2.avatar_url,
       db.map (fun r => if r.address == addr then row2 else r))

/-- The profile `POST` route (route.ts lines 362-559): 401 without an
authenticated address; `z.object` validation rejects a name over 100 or a bio
over 500 characters with 400; a present file over 5MB or of a disallowed MIME
type is rejected with 400; with a file present, a storage upload error throws
(500), and the new `avatar_url` is recorded only when `getPublicUrl` returned
a truthy URL (the upload environment is abstracted by `uploadErr` and
`publicUrl`); finally the row update of `profilePostUpdate` runs. -/
def profilePost (userAddress : Option String) (input : ProfilePostInput)
    (uploadErr : Bool) (publicUrl : Option String) (updateErr : Bool)
    (db : Db) (now : Nat) : ProfilePostResp × Db :=
  match userAddress with
  | none => (.unauthorized, db)
  | some addr =>
    if input.name.any (fun s => decide (100 < s.length)) then (.invalidInput, db)
    else if input.bio.any (fun s => decide (500 < s.length)) then (.invalidInput, db)
    else
      match input.pfp with
      | some file =>
        if 5 * 1024 * 1024 < file.size then (.fileTooLarge, db)
        else if !(allowedPfpTypes.contains file.type) then (.invalidFileType, db)
        else if uploadErr then (.serverError "Failed to upload profile picture", db)
        else
          let av := match publicUrl with
            | some u => if u == "" then none else some u
            | none => none
          profilePostUpdate addr input av updateErr db now
      | none => profilePostUpdate addr input none updateErr db now

/-! Concrete scenario used to exercise the authentication boundary: a wallet
address, crypto oracles under which the demo signatures are valid, a request
context whose CSRF token matches the nonce of the demo messages, and two distinct
signed submissions carrying that same nonce. -/

/-- Demo wallet address. -/
def demoAddr : String := "0xAbC1230000aBc123"

/-- EIP-55 oracle of the demo scenario: accepts exactly the demo address. -/
def isEIP55demo : String → Bool := fun s => s == demoAddr

/-- Recovery oracle of the demo scenario: the two demo signatures recover to
the demo address, everything else fails to recover. -/
def recoverDemo : String → String → Option String := fun _ sig =>
  if sig == "sig-one" || sig == "sig-two" then some demoAddr else none

/-- Recovery oracle of the domain-mismatch scenario. -/
def recoverEvil : String → String → Option String := fun _ sig =>
  if sig == "sig-evil" then some demoAddr else none

/-- Demo request context: the CSRF token next-auth derives from the cookies
of the request. -/
def ctxDemo : ReqCtx := { csrfToken := some "csrf-nonce-123", freshNonce := "fresh-nonce-999" }

/-- First demo message, carrying the CSRF token as its nonce. -/
def msgDemo1 : SiweMessage :=
  { domain := "app.example", address := demoAddr,
    statement := some "Sign in with Ethereum to the app.",
    uri := "https://app.example", version := "1", chainId := 1,
    nonce := "csrf-nonce-123", issuedAt := some 1000,
    expirationTime := none, notBefore := none }

/-- Second, distinct demo message carrying the same nonce. -/
def msgDemo2 : SiweMessage := { msgDemo1 with statement := some "Second sign in." }

/-- A message for a foreign domain, otherwise like the first demo message. -/
def msgEvil : SiweMessage := { msgDemo1 with domain := "evil.example" }

/-- First demo credential submission. -/
def credDemo1 : Credentials :=
  { message := some (.jsonObj msgDemo1), signature := some "sig-one" }

/-- Second, distinct demo credential submission with the same nonce. -/
def credDemo2 : Credentials :=
  { message := some (.jsonObj msgDemo2), signature := some "sig-two" }

/-- Credential submission for the foreign-domain message. -/
def credEvil : Credentials :=
  { message := some (.jsonObj msgEvil), signature := some "sig-evil" }

/-- A credential whose message text is not valid JSON. -/
def credBadJson : Credentials :=
  { message := some (.notJson "not-json"), signature := some "0xsig" }

/-- Demo environment configuration. -/
def envDemo : Env := { nextauthSecret := "s3cret", nextauthUrl := "https://app.example" }

/-- Demo authenticated user, as returned by a successful `authorize`. -/
def userDemo : AuthUser := { id := demoAddr }

/-- C1: the claim that a once-consumed nonce cannot verify a second distinct
credential submission fails on the code.  `authorize` performs no write: it
neither rotates nor invalidates the CSRF-derived nonce after a successful
verification, so in the same request context a second, distinct credential
carrying the very same nonce verifies as well, producing a second
authenticated session instead of a NonceMismatch failure. -/
theorem siwe_nonce_replay_accepted :
    msgDemo1.nonce = "csrf-nonce-123" ∧ msgDemo2.nonce = "csrf-nonce-123" ∧
    ctxDemo.csrfToken = some "csrf-nonce-123" ∧
    credDemo1 ≠ credDemo2 ∧
    authorize recoverDemo isEIP55demo 1000 (some credDemo1) ctxDemo
      = .ok (some userDemo) ∧
    authorize recoverDemo isEIP55demo 1000 (some credDemo2) ctxDemo
      = .ok (some userDemo) := by
  refine ⟨rfl, rfl, rfl, ?_, rfl, rfl⟩
  decide

/-- C2: the claim that a credential whose message domain differs from the
expected host of the server fails verification fails on the code.  The route calls
`siwe.verify` with only the signature and the nonce; since no domain
parameter is passed, the library performs no domain comparison at all, and a
validly signed message for `evil.example` authenticates against a server
whose canonical URL is `https://app.example`. -/
theorem siwe_domain_mismatch_accepted :
    msgEvil.domain = "evil.example" ∧
    specExpectedDomain envDemo = "app.example" ∧
    msgEvil.domain ≠ specExpectedDomain envDemo ∧
    authorize recoverEvil isEIP55demo 1000 (some credEvil) ctxDemo
      = .ok (some userDemo) := by
  refine ⟨rfl, ?_, ?_, rfl⟩ <;> decide

/-- C6: the claim that `authorize` returns a controlled failure on every
credentials input fails on the code.  The opening `logToServer` call
evaluates `JSON.parse(credentials.message)` before the `try` block begins, so
a submission whose message text is not valid JSON makes `authorize` throw an
uncontrolled SyntaxError that propagates to the transport layer instead of
returning `null`. -/
theorem authorize_throws_on_nonjson_message :
    authorize recoverDemo isEIP55demo 0 (some credBadJson) ctxDemo
      = .error .jsonParseThrow := rfl

/-- C3 counterexample: a concrete successful sign-in whose issued token and
session carry no handle.  The token holds only `sub` (the address); the
session callback assigns `id` and `address` from it and nothing else, so the
decoded claims do not contain a non-null handle. -/
theorem session_handle_missing_cx :
    authorize recoverDemo isEIP55demo 1000 (some credDemo1) ctxDemo
      = .ok (some userDemo) ∧
    (tokenForSignIn userDemo 1000).sub = some demoAddr ∧
    (tokenForSignIn userDemo 1000).handle = none ∧
    ((sessionCallback {} (tokenForSignIn userDemo 1000)).user.getD {}).address
      = some demoAddr ∧
    ((sessionCallback {} (tokenForSignIn userDemo 1000)).user.getD {}).handle
      = none :=
  ⟨rfl, rfl, rfl, rfl, rfl⟩

/-- C3 (amended): for every successful sign-in the `sub` claim of the issued
token
is the authenticated wallet address and the session object exposes that
address as both `user.id` and `user.address`; no handle claim is included in
the token at issuance. -/
theorem session_claims_amended (u : AuthUser) (s : Session) (now : Nat) :
    (tokenForSignIn u now).sub = some u.id ∧
    (tokenForSignIn u now).handle = none ∧
    ((sessionCallback s (tokenForSignIn u now)).user.getD {}).id = some u.id ∧
    ((sessionCallback s (tokenForSignIn u now)).user.getD {}).address = some u.id :=
  ⟨rfl, rfl, rfl, rfl⟩

/-- C4 counterexample: a concrete successful sign-in issues a session token
whose handle is unresolved, refuting the claim that the flow never issues a
session with an unresolved handle — session issuance does not involve account
resolution at all. -/
theorem session_issued_with_unresolved_handle_cx :
    authorize recoverDemo isEIP55demo 1000 (some credDemo2) ctxDemo
      = .ok (some userDemo) ∧
    (tokenForSignIn userDemo 1000).handle = none ∧
    ((sessionCallback {} (tokenForSignIn userDemo 1000)).user.getD {}).handle
      = none :=
  ⟨rfl, rfl, rfl⟩

/-- C4 (amended): fail-closed behaviour on storage errors lives in the
profile route, not in session issuance — a storage error in the account
lookup makes the profile request fail with a 500 error response and leaves
the table unchanged, while every issued session token carries no handle claim
regardless of storage. -/
theorem storage_error_fails_profile_closed (code : String)
    (h : code ≠ "PGRST116") (addr : String) (db : Db) (now : Nat)
    (u : AuthUser) (tnow : Nat) :
    (profileGet (some addr) db { selectErr := some code } now).1
      = .serverError "select error" ∧
    (profileGet (some addr) db { selectErr := some code } now).2 = db ∧
    (tokenForSignIn u tnow).handle = none := by
  have hb : (code != "PGRST116") = true := by
    simpa [bne_iff_ne] using h
  refine ⟨?_, ?_, rfl⟩ <;> simp [profileGet, hb]

/-- Witness: the amended C4 statement at a concrete storage error code. -/
theorem storage_error_fails_profile_closed_witness :
    ("boom" ≠ "PGRST116") ∧
    ((profileGet (some demoAddr) [] { selectErr := some "boom" } 5).1
        = .serverError "select error" ∧
      (profileGet (some demoAddr) [] { selectErr := some "boom" } 5).2 = ([] : Db) ∧
      (tokenForSignIn userDemo 5).handle = none) :=
  ⟨by decide,
   storage_error_fails_profile_closed "boom" (by decide) demoAddr [] 5 userDemo 5⟩

/-- C5: the claim that a uniqueness-violating insert during first-time
provisioning is handled by re-fetching the row of the winner fails on the code.
Both profile `GET` variants throw the insert error: with the Postgres
unique-violation code 23505 injected (a concurrent request inserted the row
after the select of this request saw none), the response is a 500 server error —
no re-fetch of the winning handle happens. -/
theorem insert_race_returns_500 :
    profileGet (some demoAddr) [] { insertErr := some "23505" } 7
      = (.serverError "insert error", []) ∧
    profileGet2 (some demoAddr) [] { insertErr := some "23505" } 7
      = (.serverError "insert error", []) :=
  ⟨rfl, rfl⟩

/-- C7: route-guard trichotomy — a non-protected path passes through; a
protected path with a token that reads as valid passes through; a protected
path with a missing or invalid token is redirected to the home page. -/
theorem route_guard_behavior (path : String) (token : Option JWT) :
    (isProtectedPath path = false → middleware path token = .next) ∧
    (isProtectedPath path = true → ∀ t, token = some t → middleware path token = .next) ∧
    (isProtectedPath path = true → token = none → middleware path token = .redirect "/") := by
  refine ⟨fun h => ?_, fun h t ht => ?_, fun h ht => ?_⟩
  · simp [middleware, h]
  · subst ht; simp [middleware, h]
  · subst ht; simp [middleware, h]

/-- Demonstration token for the guard witness. -/
def jwtDemo : JWT := tokenForSignIn userDemo 1000

/-- Witness: the guard at `/about` with no token, and at `/profile` with and
without a valid token. -/
theorem route_guard_behavior_witness :
    middleware "/about" none = .next ∧
    middleware "/profile" (some jwtDemo) = .next ∧
    middleware "/profile" none = .redirect "/" :=
  ⟨(route_guard_behavior "/about" none).1 (by decide),
   (route_guard_behavior "/profile" (some jwtDemo)).2.1 (by decide) jwtDemo rfl,
   (route_guard_behavior "/profile" none).2.2 (by decide) rfl⟩

/-- A predicate never holding on a list found as `none` also filters to nil. -/
theorem find_none_filter_nil {α} (p : α → Bool) (l : List α)
    (h : l.find? p = none) : l.filter p = [] := by
  induction l with
  | nil => rfl
  | cons a t ih =>
    by_cases hp : p a
    · rw [List.find?_cons_of_pos _ hp] at h
      exact absurd h (by simp)
    · rw [List.find?_cons_of_neg _ hp] at h
      simp [List.filter_cons, hp, ih h]

/-- `find?` over an append whose first part yields nothing. -/
theorem find_append_of_none {α} (p : α → Bool) (l1 l2 : List α)
    (h : l1.find? p = none) : (l1 ++ l2).find? p = l2.find? p := by
  induction l1 with
  | nil => rfl
  | cons a t ih =>
    by_cases hp : p a
    · rw [List.find?_cons_of_pos _ hp] at h
      exact absurd h (by simp)
    · rw [List.find?_cons_of_neg _ hp] at h
      rw [List.cons_append, List.find?_cons_of_neg _ hp]
      exact ih h

/-- The row inserted when provisioning a previously-unseen address. -/
def provisionedRow (addr : String) (now : Nat) : UserRow :=
  { address := addr, handle := some (sliceLast6 addr),
    created_at := now, updated_at := now }

/-- C8: idempotent handle assignment.  For a previously-unseen address, the
first profile fetch provisions a row whose handle is the last six characters
of the address and returns that handle; an immediately following second fetch
returns the same handle, leaves the table unchanged, and exactly one row for
the address exists afterwards. -/
theorem handle_assignment_idempotent (addr : String) (db : Db) (now1 now2 : Nat)
    (hfresh : findByAddress db addr = none) :
    (profileGet2 (some addr) db {} now1).1.handleOf = some (sliceLast6 addr) ∧
    (profileGet2 (some addr) (profileGet2 (some addr) db {} now1).2 {} now2).1.handleOf
      = some (sliceLast6 addr) ∧
    (profileGet2 (some addr) (profileGet2 (some addr) db {} now1).2 {} now2).2
      = (profileGet2 (some addr) db {} now1).2 ∧
    ((profileGet2 (some addr) db {} now1).2.filter (fun r => r.address == addr)).length
      = 1 := by
  have h1 : profileGet2 (some addr) db {} now1
      = (profileBody2 (provisionedRow addr now1), db ++ [provisionedRow addr now1]) := by
    show profileGet2AfterSelect addr (findByAddress db addr) db {} now1 = _
    rw [hfresh]
    rfl
  have hfind : findByAddress (db ++ [provisionedRow addr now1]) addr
      = some (provisionedRow addr now1) := by
    unfold findByAddress at hfresh ⊢
    rw [find_append_of_none _ _ _ hfresh]
    simp [provisionedRow]
  have h2 : profileGet2 (some addr) (db ++ [provisionedRow addr now1]) {} now2
      = (profileBody2 (provisionedRow addr now1), db ++ [provisionedRow addr now1]) := by
    show profileGet2AfterSelect addr
        (findByAddress (db ++ [provisionedRow addr now1]) addr)
        (db ++ [provisionedRow addr now1]) {} now2 = _
    rw [hfind]
    rfl
  have hnil : db.filter (fun r => r.address == addr) = [] :=
    find_none_filter_nil _ _ hfresh
  refine ⟨by rw [h1]; rfl, ?_, ?_, ?_⟩
  · rw [h1]; rw [h2]; rfl
  · rw [h1]; rw [h2]
  · rw [h1]
    simp [List.filter_append, hnil, provisionedRow]

/-- Witness: the idempotence statement for the demo address on an empty
table. -/
theorem handle_assignment_idempotent_witness :
    findByAddress ([] : Db) demoAddr = none ∧
    ((profileGet2 (some demoAddr) [] {} 5).1.handleOf = some (sliceLast6 demoAddr) ∧
     (profileGet2 (some demoAddr) (profileGet2 (some demoAddr) [] {} 5).2 {} 6).1.handleOf
       = some (sliceLast6 demoAddr) ∧
     (profileGet2 (some demoAddr) (profileGet2 (some demoAddr) [] {} 5).2 {} 6).2
       = (profileGet2 (some demoAddr) [] {} 5).2 ∧
     ((profileGet2 (some demoAddr) [] {} 5).2.filter (fun r => r.address == demoAddr)).length
       = 1) :=
  ⟨rfl, handle_assignment_idempotent demoAddr [] 5 6 rfl⟩

/-- A string other than the empty one has length at least 1. -/
theorem one_le_length_of_ne_empty {s : String} (h : s ≠ "") : 1 ≤ s.length := by
  cases s with
  | mk data =>
    cases data with
    | nil => exact absurd (by rfl) h
    | cons c cs =>
      show 1 ≤ (c :: cs).length
      simp

/-- C9: response trichotomy of the public profile-by-handle endpoint — an
empty handle argument fails `z.string().min(1)` and yields status 400; a
non-empty handle with no matching row yields 404; a matching row yields its
selected columns (address, display name, avatar, bio, handle, join date,
tier). -/
theorem profile_by_handle_statuses (handle : String) (db : Db) :
    (handle = "" → (usersHandleGet handle db false).status = 400) ∧
    (handle ≠ "" → findByHandle db handle = none →
      usersHandleGet handle db false = .notFound) ∧
    (∀ row, handle ≠ "" → findByHandle db handle = some row →
      usersHandleGet handle db false
        = .found row.address row.display_name row.avatar_url row.bio row.handle
            row.created_at row.tier) := by
  refine ⟨fun h => ?_, fun hne hnone => ?_, fun row hne hsome => ?_⟩
  · subst h; rfl
  · have hlen : ¬ handle.length < 1 := Nat.not_lt.mpr (one_le_length_of_ne_empty hne)
    simp [usersHandleGet, hlen, hnone]
  · have hlen : ¬ handle.length < 1 := Nat.not_lt.mpr (one_le_length_of_ne_empty hne)
    simp [usersHandleGet, hlen, hsome]

/-- Demonstration row for the profile-by-handle witness. -/
def rowDemo : UserRow :=
  { address := demoAddr, handle := some "aBc123", display_name := some "Ada",
    bio := some "hi", avatar_url := none, tier := some "based", created_at := 3 }

/-- Witness: the three profile-by-handle branches at concrete inputs. -/
theorem profile_by_handle_statuses_witness :
    (usersHandleGet "" [rowDemo] false).status = 400 ∧
    usersHandleGet "nosuch" [rowDemo] false = .notFound ∧
    usersHandleGet "aBc123" [rowDemo] false
      = .found rowDemo.address rowDemo.display_name rowDemo.avatar_url
          rowDemo.bio rowDemo.handle rowDemo.created_at rowDemo.tier :=
  ⟨(profile_by_handle_statuses "" [rowDemo]).1 rfl,
   (profile_by_handle_statuses "nosuch" [rowDemo]).2.1 (by decide) rfl,
   (profile_by_handle_statuses "aBc123" [rowDemo]).2.2 rowDemo (by decide) rfl⟩

/-- The row the profile `POST` update writes: `display_name` and `bio` set to
exactly the submitted values, `avatar_url` replaced only when a new URL was
produced, `updated_at` refreshed, and every other column left as it was. -/
def updatedRow (row : UserRow) (input : ProfilePostInput) (newUrl : Option String)
    (now : Nat) : UserRow :=
  { row with
    display_name := input.name,
    bio := input.bio,
    avatar_url := match newUrl with | some u => some u | none => row.avatar_url,
    updated_at := now }

/-- Net effect of the profile `POST` row update when it succeeds: the matched
rows are replaced by `updatedRow`. -/
theorem profilePostUpdate_effect (addr : String) (input : ProfilePostInput)
    (newUrl : Option String) (db : Db) (now : Nat) (row : UserRow)
    (hfound : findByAddress db addr = some row) :
    profilePostUpdate addr input newUrl false db now
      = (.okBody input.name input.bio (updatedRow row input newUrl now).avatar_url,
         db.map (fun r => if r.address == addr then updatedRow row input newUrl now else r)) := by
  show (match findByAddress db addr with
    | none => (ProfilePostResp.serverError "Failed to update profile data", db)
    | some row => _) = _
  rw [hfound]
  rfl

/-- The new avatar URL an update run records: present exactly when a file was
submitted, its upload succeeded, and the blob store returned a truthy public
URL. -/
def effectiveNewUrl (input : ProfilePostInput) (uploadErr : Bool)
    (publicUrl : Option String) : Option String :=
  match input.pfp with
  | none => none
  | some _ =>
    if uploadErr then none
    else
      match publicUrl with
      | some u => if u == "" then none else some u
      | none => none

/-- C10: frame condition of a successful profile update.  The stored row for
the address of the caller is overwritten so that `display_name` and `bio` hold
exactly the submitted values (null when the form field was absent),
`avatar_url` changes only when a new upload produced a public URL and is
otherwise untouched, `address` and `handle` are never modified, and every
other row is untouched. -/
theorem profile_update_frame (addr : String) (input : ProfilePostInput)
    (uploadErr : Bool) (publicUrl : Option String) (updateErr : Bool)
    (db : Db) (now : Nat) (row : UserRow) (n b p : Option String)
    (hfound : findByAddress db addr = some row)
    (hok : (profilePost (some addr) input uploadErr publicUrl updateErr db now).1
      = .okBody n b p) :
    (profilePost (some addr) input uploadErr publicUrl updateErr db now).2
      = db.map (fun r => if r.address == addr then
          updatedRow row input (effectiveNewUrl input uploadErr publicUrl) now else r) ∧
    (updatedRow row input (effectiveNewUrl input uploadErr publicUrl) now).display_name
      = input.name ∧
    (updatedRow row input (effectiveNewUrl input uploadErr publicUrl) now).bio
      = input.bio ∧
    (updatedRow row input (effectiveNewUrl input uploadErr publicUrl) now).address
      = row.address ∧
    (updatedRow row input (effectiveNewUrl input uploadErr publicUrl) now).handle
      = row.handle ∧
    (effectiveNewUrl input uploadErr publicUrl = none →
      (updatedRow row input (effectiveNewUrl input uploadErr publicUrl) now).avatar_url
        = row.avatar_url) ∧
    (∀ u, effectiveNewUrl input uploadErr publicUrl = some u →
      (updatedRow row input (effectiveNewUrl input uploadErr publicUrl) now).avatar_url
        = some u) := by
  have hname : (input.name.any fun s => decide (100 < s.length)) = false := by
    by_contra hc
    have hc2 : (input.name.any fun s => decide (100 < s.length)) = true := by
      revert hc; cases input.name.any fun s => decide (100 < s.length) <;> simp
    simp [profilePost, hc2] at hok
  have hbio : (input.bio.any fun s => decide (500 < s.length)) = false := by
    by_contra hc
    have hc2 : (input.bio.any fun s => decide (500 < s.length)) = true := by
      revert hc; cases input.bio.any fun s => decide (500 < s.length) <;> simp
    simp [profilePost, hname, hc2] at hok
  have havatar : ∀ nu : Option String,
      (nu = none → (updatedRow row input nu now).avatar_url = row.avatar_url) ∧
      (∀ u, nu = some u → (updatedRow row input nu now).avatar_url = some u) := by
    intro nu
    refine ⟨fun h => ?_, fun u h => ?_⟩ <;> subst h <;> rfl
  cases hpfp : input.pfp with
  | none =>
    have hred : profilePost (some addr) input uploadErr publicUrl updateErr db now
        = profilePostUpdate addr input none updateErr db now := by
      simp [profilePost, hname, hbio, hpfp]
    cases updateErr with
    | true =>
      rw [hred] at hok
      simp [profilePostUpdate] at hok
    | false =>
      have heff : effectiveNewUrl input uploadErr publicUrl = none := by
        simp [effectiveNewUrl, hpfp]
      rw [hred, heff]
      rw [profilePostUpdate_effect addr input none db now row hfound]
      exact ⟨rfl, rfl, rfl, rfl, rfl, (havatar none).1, (havatar none).2⟩
  | some file =>
    by_cases hsize : 5 * 1024 * 1024 < file.size
    · simp [profilePost, hname, hbio, hpfp, hsize] at hok
    · by_cases hmem : file.type ∈ allowedPfpTypes
      · cases uploadErr with
        | true => simp [profilePost, hname, hbio, hpfp, hsize, hmem] at hok
        | false =>
          have hred : profilePost (some addr) input false publicUrl updateErr db now
              = profilePostUpdate addr input (effectiveNewUrl input false publicUrl)
                  updateErr db now := by
            cases publicUrl <;>
              simp [profilePost, hname, hbio, hpfp, hsize, hmem, effectiveNewUrl]
          rw [hred] at hok
          rw [hred]
          cases updateErr with
          | true => simp [profilePostUpdate] at hok
          | false =>
            rw [profilePostUpdate_effect addr input _ db now row hfound]
            exact ⟨rfl, rfl, rfl, rfl, rfl, (havatar _).1, (havatar _).2⟩
      · simp [profilePost, hname, hbio, hpfp, hsize, hmem] at hok

/-- Demonstration form input for the update-frame witness. -/
def inputDemo : ProfilePostInput := { name := some "Ada2", bio := none, pfp := none }

/-- Witness: the frame condition of a concrete successful update with no file
upload — name overwritten, bio cleared, avatar, address and handle
untouched. -/
theorem profile_update_frame_witness :
    findByAddress [rowDemo] demoAddr = some rowDemo ∧
    (profilePost (some demoAddr) inputDemo false none false [rowDemo] 9).1
      = .okBody (some "Ada2") none none ∧
    ((profilePost (some demoAddr) inputDemo false none false [rowDemo] 9).2
        = [rowDemo].map (fun r => if r.address == demoAddr then
            updatedRow rowDemo inputDemo (effectiveNewUrl inputDemo false none) 9 else r) ∧
      (updatedRow rowDemo inputDemo (effectiveNewUrl inputDemo false none) 9).display_name
        = inputDemo.name ∧
      (updatedRow rowDemo inputDemo (effectiveNewUrl inputDemo false none) 9).bio
        = inputDemo.bio ∧
      (updatedRow rowDemo inputDemo (effectiveNewUrl inputDemo false none) 9).address
        = rowDemo.address ∧
      (updatedRow rowDemo inputDemo (effectiveNewUrl inputDemo false none) 9).handle
        = rowDemo.handle ∧
      (effectiveNewUrl inputDemo false none = none →
        (updatedRow rowDemo inputDemo (effectiveNewUrl inputDemo false none) 9).avatar_url
          = rowDemo.avatar_url) ∧
      (∀ u, effectiveNewUrl inputDemo false none = some u →
        (updatedRow rowDemo inputDemo (effectiveNewUrl inputDemo false none) 9).avatar_url
          = some u)) :=
  ⟨rfl, rfl,
   profile_update_frame demoAddr inputDemo false none false [rowDemo] 9 rowDemo
     (some "Ada2") none none rfl rfl⟩

end AuthTest
